import Mathlib

/-!
# The HTTP gateway of `main.go`

`main.go` is the whole program: it reads `PORT`, builds a gin engine with a
CORS middleware and two `GET` routes under `/api/v1`, and listens.

The embedding has three layers.

* `main`, `corsMiddleware`, `healthHandler`, `helloHandler` and the port
  selection are transcribed from `main.go`.
* The gin calls that `main.go` makes (`gin.Default`, `Use`, `Group`, `GET`,
  `c.Header`, `c.AbortWithStatus`, `c.Next`, `c.JSON`, and the dispatch in
  `Engine.ServeHTTP`) are given the behaviour of the gin library, function by
  function, as pure state passing over a response writer.
* The few `net/http`, `net/url`, `path` and `encoding/json` functions those
  rely on are given as list functions over characters.

The boundary is `Engine.ServeHTTP`.  A request is what the engine receives for
an origin-form request target: method, URL path, query, headers, body.
Requests that `net/http` answers by itself (malformed ones, the asterisk form
`OPTIONS *`) never reach the engine and are outside.  A response is what
reaches the wire for the handler's calls: the status line and the header map
as they stand when the header is written, and the body bytes accepted
afterwards.  Headers that the HTTP server adds by itself (`Date`,
`Content-Length`) are outside.  Strings are Unicode text; Go's byte-wise
functions see them through their UTF-8 encoding.
-/

namespace Backend

/-! ## Strings, `path` and `net/url` helpers -/

/-- Digit `n` of the lower-case hexadecimal alphabet. -/
def hexDigit (n : Nat) : Char :=
  "0123456789abcdef".data.getD n '0'

/-- Digit `n` of the upper-case hexadecimal alphabet used by `net/url`. -/
def upperHexDigit (n : Nat) : Char :=
  "0123456789ABCDEF".data.getD n '0'

/-- UTF-8 encoding of one character, as byte values.  Go strings are byte
strings; the functions below that work byte by byte go through this. -/
def utf8Bytes (c : Char) : List Nat :=
  let n := c.toNat
  if n < 0x80 then [n]
  else if n < 0x800 then [0xC0 + n / 64, 0x80 + n % 64]
  else if n < 0x10000 then [0xE0 + n / 4096, 0x80 + n / 64 % 64, 0x80 + n % 64]
  else [0xF0 + n / 262144, 0x80 + n / 4096 % 64, 0x80 + n / 64 % 64, 0x80 + n % 64]

/-- Byte-wise order on strings (`a < b` in Go), which on valid UTF-8 is the
order of the code points. -/
def bytesLess : List Char → List Char → Bool
  | [], [] => false
  | [], _ :: _ => true
  | _ :: _, [] => false
  | a :: as, b :: bs =>
    if a.toNat < b.toNat then true
    else if b.toNat < a.toNat then false
    else bytesLess as bs

/-- Scanner position of `path.Clean`: between elements, inside an element that
is being copied, or on the second dot of a `..` element. -/
inductive CleanMode where
  | boundary
  | element
  | skip
  deriving DecidableEq

/-- The backward scan of `path.Clean` for a `..` element: from write index `w`
move left while above `dotdot` and not on a slash. -/
def cleanBacktrack (out : List Char) (dotdot : Nat) : Nat → Nat
  | 0 => 0
  | w + 1 =>
    if dotdot < w + 1 ∧ out.getD (w + 1) '/' ≠ '/' then cleanBacktrack out dotdot w
    else w + 1

/-- The main loop of Go `path.Clean` over the unread input, with the output
buffer `out` and the index `dotdot` below which `..` may not backtrack. -/
def cleanLoop (rooted : Bool) : List Char → CleanMode → List Char → Nat → List Char
  | [], _, out, _ => out
  | _ :: r, .skip, out, dotdot => cleanLoop rooted r .boundary out dotdot
  | c :: r, .element, out, dotdot =>
    if c = '/' then cleanLoop rooted r .boundary out dotdot
    else cleanLoop rooted r .element (out ++ [c]) dotdot
  | c :: r, .boundary, out, dotdot =>
    if c = '/' then
      -- empty path element
      cleanLoop rooted r .boundary out dotdot
    else if c = '.' ∧ (r = [] ∨ r.head? = some '/') then
      -- . element
      cleanLoop rooted r .boundary out dotdot
    else if c = '.' ∧ r.head? = some '.' ∧ (r.tail = [] ∨ r.tail.head? = some '/') then
      -- .. element: remove to last /
      if dotdot < out.length then
        cleanLoop rooted r .skip (out.take (cleanBacktrack out dotdot (out.length - 1))) dotdot
      else if !rooted then
        let out1 := (if 0 < out.length then out ++ ['/'] else out) ++ ['.', '.']
        cleanLoop rooted r .skip out1 out1.length
      else
        cleanLoop rooted r .skip out dotdot
    else
      -- real path element: add slash if needed, then copy it
      let out1 :=
        if (rooted ∧ out.length ≠ 1) ∨ (!rooted ∧ out.length ≠ 0) then out ++ ['/'] else out
      cleanLoop rooted r .element (out1 ++ [c]) dotdot

/-- Go `path.Clean`. -/
def pathClean (path : String) : String :=
  match path.data with
  | [] => "."
  | c :: r =>
    let out :=
      if c = '/' then cleanLoop true r .boundary ['/'] 1
      else cleanLoop false (c :: r) .boundary [] 0
    if out.length = 0 then "." else String.mk out

/-- Go `path.Join`: the elements joined by slashes, leading empty elements
skipped, then cleaned; the empty string when every element is empty. -/
def pathJoin (elem : List String) : String :=
  if (elem.map String.length).sum = 0 then ""
  else
    pathClean (elem.foldl
      (fun buf e => if buf ≠ "" ∨ e ≠ "" then (if buf ≠ "" then buf ++ "/" else buf) ++ e else buf) "")

/-- Whether `s` ends with the byte `c` (gin `lastChar(s) == c`, `strings.HasSuffix`). -/
def endsWith (s : String) (c : Char) : Bool :=
  s.data.getLast? = some c

/-- Go `shouldEscape(c, encodePath)` on a byte of the ASCII range: letters,
digits, `-_.~` and `$&+,/:;=@` stay, everything else is percent-encoded. -/
def shouldEscapePath (c : Char) : Bool :=
  !(c.isAlphanum || "-_.~$&+,/:;=@".data.contains c)

/-- Go `escape(s, encodePath)`: percent-encoding with upper-case digits. -/
def escapePath (s : String) : String :=
  String.mk (s.data.flatMap fun c =>
    if c.toNat < 0x80 ∧ !shouldEscapePath c then [c]
    else (utf8Bytes c).flatMap fun b => ['%', upperHexDigit (b / 16), upperHexDigit (b % 16)])

/-- The `htmlReplacer` of `net/http`. -/
def htmlEscape (s : String) : String :=
  String.mk (s.data.flatMap fun c =>
    if c = '&' then "&amp;".data
    else if c = '<' then "&lt;".data
    else if c = '>' then "&gt;".data
    else if c = '"' then "&#34;".data
    else if c = Char.ofNat 39 then "&#39;".data
    else [c])

/-- The `hexEscapeNonASCII` of `net/http`: bytes from 0x80 up become `%xx`. -/
def hexEscapeNonASCII (s : String) : String :=
  String.mk (s.data.flatMap fun c =>
    if c.toNat < 0x80 then [c]
    else (utf8Bytes c).flatMap fun b => ['%', hexDigit (b / 16), hexDigit (b % 16)])

/-! ## `encoding/json` on `gin.H` -/

/-- A `gin.H` literal whose values are strings, as `main.go` builds them.  The
pairs stand in source order; a Go map has no order of its own. -/
abbrev H := List (String × String)

/-- One character of a JSON string as `encoding/json` writes it with HTML
escaping on (the default of `json.Marshal`), Go 1.22 or later for the short
forms of backspace and form feed. -/
def jsonChar (c : Char) : List Char :=
  if c = '\\' then ['\\', '\\']
  else if c = '"' then ['\\', '"']
  else if c.toNat = 8 then ['\\', 'b']
  else if c.toNat = 12 then ['\\', 'f']
  else if c = '\n' then ['\\', 'n']
  else if c = '\r' then ['\\', 'r']
  else if c = '\t' then ['\\', 't']
  else if c.toNat < 0x20 ∨ c = '<' ∨ c = '>' ∨ c = '&' then
    ['\\', 'u', '0', '0', hexDigit (c.toNat / 16), hexDigit (c.toNat % 16)]
  else if c.toNat = 0x2028 then "\\u2028".data
  else if c.toNat = 0x2029 then "\\u2029".data
  else [c]

/-- A JSON string literal. -/
def jsonString (s : String) : String :=
  String.mk ('"' :: s.data.flatMap jsonChar ++ ['"'])

/-- Insertion of a pair into a list sorted by key. -/
def insertByKey (p : String × String) : H → H
  | [] => [p]
  | q :: rest => if bytesLess p.1.data q.1.data then p :: q :: rest else q :: insertByKey p rest

/-- The pairs sorted by key, as `encoding/json` orders the keys of a map. -/
def sortByKey (obj : H) : H :=
  obj.foldr insertByKey []

/-- The members of a JSON object, comma separated. -/
def jsonMembers : H → String
  | [] => ""
  | [p] => jsonString p.1 ++ ":" ++ jsonString p.2
  | p :: q :: rest => jsonString p.1 ++ ":" ++ jsonString p.2 ++ "," ++ jsonMembers (q :: rest)

/-- Go `json.Marshal` of a `gin.H` with string values. -/
def jsonMarshal (obj : H) : String :=
  "\x7b" ++ jsonMembers (sortByKey obj) ++ "\x7d"

/-! ## `net/http`: requests, header maps, the response writer -/

/-- A header map restricted to what the program does with it: `Set`, `Del`
and reading one value per key.  Keys are compared as written; every key the
program writes is already in canonical MIME form. -/
abbrev Header := List (String × String)

/-- Go `Header.Del`. -/
def Header.Del (h : Header) (key : String) : Header :=
  h.filter fun p => p.1 ≠ key

/-- Go `Header.Set`: the key now maps to the single value. -/
def Header.Set (h : Header) (key value : String) : Header :=
  Header.Del h key ++ [(key, value)]

/-- The URL of a request with an origin-form target. -/
structure URL where
  Path : String
  RawQuery : String := ""
  ForceQuery : Bool := false
  deriving DecidableEq

/-- Go `URL.String` for a URL without scheme, host or fragment, whose raw
path does not encode `Path` (the case after gin has rewritten `Path`). -/
def URL.String (u : URL) : String :=
  let path := if u.Path = "*" then "*" else escapePath u.Path
  let dotSlash := if (path.data.takeWhile fun c => c ≠ '/').contains ':' then "./" else ""
  dotSlash ++ path ++ (if u.ForceQuery ∨ u.RawQuery ≠ "" then "?" ++ u.RawQuery else "")

/-- An incoming request as the engine sees it. -/
structure Request where
  Method : String
  URL : URL
  Header : Header := []
  Body : String := ""
  deriving DecidableEq

/-- What the client receives from the handler: status, header map at the
time the header was written, body. -/
structure Response where
  status : Nat
  header : Header
  body : String
  deriving DecidableEq

/-- Go `bodyAllowedForStatus` (the same function in `net/http` and in gin). -/
def bodyAllowedForStatus (status : Nat) : Bool :=
  if 100 ≤ status ∧ status ≤ 199 then false
  else if status = 204 then false
  else if status = 304 then false
  else true

/-- The gin `responseWriter` together with the `net/http` response it wraps.
`status` and `size` are gin's fields (`defaultStatus` 200, `noWritten` -1);
`wrote` is the status line and header snapshot `net/http` took at
`WriteHeader`; `body` is what `net/http` accepted. -/
structure ResponseWriter where
  reqMethod : String
  header : Header := []
  status : Nat := 200
  size : Int := -1
  wrote : Option (Nat × Header) := none
  body : String := ""
  deriving DecidableEq

/-- The gin `responseWriter.Written`. -/
def ResponseWriter.Written (w : ResponseWriter) : Bool :=
  w.size ≠ -1

/-- The gin `responseWriter.WriteHeader`: records the code unless the header
has gone out already. -/
def ResponseWriter.WriteHeader (w : ResponseWriter) (code : Nat) : ResponseWriter :=
  if 0 < code ∧ w.status ≠ code then
    if w.Written then w else { w with status := code }
  else w

/-- The gin `responseWriter.WriteHeaderNow`: the first call sends the status
line with the header map as it stands. -/
def ResponseWriter.WriteHeaderNow (w : ResponseWriter) : ResponseWriter :=
  if !w.Written then { w with size := 0, wrote := some (w.status, w.header) }
  else w

/-- The gin `responseWriter.Write` over `net/http`: the header goes out first;
`net/http` refuses a body for a status that allows none and drops the body of
a reply to `HEAD`. -/
def ResponseWriter.Write (w : ResponseWriter) (data : String) : ResponseWriter :=
  let w := w.WriteHeaderNow
  let sent := match w.wrote with
    | some (st, _) => st
    | none => w.status
  if !bodyAllowedForStatus sent then w
  else if w.reqMethod = "HEAD" then { w with size := w.size + data.utf8ByteSize }
  else { w with body := w.body ++ data, size := w.size + data.utf8ByteSize }

/-- The response once the handler has returned; `net/http` sends status 200
with the current header map if the handler never wrote the header. -/
def ResponseWriter.response (w : ResponseWriter) : Response :=
  match w.wrote with
  | some (st, h) => { status := st, header := h, body := w.body }
  | none => { status := 200, header := w.header, body := w.body }

/-- Go `http.StatusText` for the two redirect codes gin uses. -/
def statusText (code : Nat) : String :=
  if code = 301 then "Moved Permanently"
  else if code = 307 then "Temporary Redirect"
  else ""

/-- Go `http.Redirect` for a target without scheme and host: a relative
target is made absolute against `oldpath`, the path is cleaned keeping a
trailing slash, the query is kept; `Location` is set, a short HTML body is
written for `GET`. -/
def httpRedirect (w : ResponseWriter) (method oldpath url : String) (code : Nat) :
    ResponseWriter :=
  let oldpath := if oldpath = "" then "/" else oldpath
  let url :=
    if url.data.head? ≠ some '/' then
      String.mk ((oldpath.data.reverse.dropWhile fun c => c ≠ '/').reverse) ++ url
    else url
  let p := String.mk (url.data.takeWhile fun c => c ≠ '?')
  let query := String.mk (url.data.dropWhile fun c => c ≠ '?')
  let cleaned := pathClean p
  let url := (if endsWith p '/' ∧ !endsWith cleaned '/' then cleaned ++ "/" else cleaned) ++ query
  let hadCT := w.header.lookup "Content-Type" ≠ none
  let w := { w with header := Header.Set w.header "Location" (hexEscapeNonASCII url) }
  let w :=
    if !hadCT ∧ (method = "GET" ∨ method = "HEAD") then
      { w with header := Header.Set w.header "Content-Type" "text/html; charset=utf-8" }
    else w
  let w := w.WriteHeader code
  if !hadCT ∧ method = "GET" then
    w.Write ("<a href=\"" ++ htmlEscape url ++ "\">" ++ statusText code ++ "</a>.\n" ++ "\n")
  else w

/-! ## gin: context, handler chain, engine -/

/-- The part of `gin.Context` the program touches: the request, the response
writer and the position `index` in the handler chain (`-1` after `reset`). -/
structure Context where
  Request : Backend.Request
  Writer : ResponseWriter
  index : Int := -1
  deriving DecidableEq

/-- The gin constant `abortIndex`, `math.MaxInt8 >> 1`. -/
def abortIndex : Int := 63

/-- A gin handler.  Go handlers receive the context and may call `c.Next()`;
here the first argument is that call, supplied by the chain runner. -/
abbrev HandlerFunc := (Context → Context) → Context → Context

/-- The gin `c.Header`: an empty value deletes the key. -/
def Context.Header (c : Context) (key value : String) : Context :=
  if value = "" then { c with Writer := { c.Writer with header := Header.Del c.Writer.header key } }
  else { c with Writer := { c.Writer with header := Header.Set c.Writer.header key value } }

/-- The gin `c.Status`. -/
def Context.Status (c : Context) (code : Nat) : Context :=
  { c with Writer := c.Writer.WriteHeader code }

/-- The gin `c.Abort`. -/
def Context.Abort (c : Context) : Context :=
  { c with index := abortIndex }

/-- The gin `c.AbortWithStatus`. -/
def Context.AbortWithStatus (c : Context) (code : Nat) : Context :=
  let c := c.Status code
  let c := { c with Writer := c.Writer.WriteHeaderNow }
  c.Abort

/-- The loop of gin `c.Next` with `n = len(c.handlers)`: the list holds the
handlers from position `c.index` on.  Each is run while `c.index < n` and the
index is stepped after it; a handler that calls `c.Next()` runs the rest of
the list in a nested loop, after which the outer loop finds the index at the
end. -/
def Context.run (n : Int) : List HandlerFunc → Context → Context
  | [], c => c
  | h :: rest, c =>
    if c.index < n then
      let c := h (fun c => Context.run n rest { c with index := c.index + 1 }) c
      Context.run n rest { c with index := c.index + 1 }
    else c

/-- The gin `c.Next` of the outermost call, on the chain `handlers`. -/
def Context.Next (c : Context) (handlers : List HandlerFunc) : Context :=
  Context.run handlers.length handlers { c with index := c.index + 1 }

/-- The gin `jsonContentType`. -/
def jsonContentType : String := "application/json; charset=utf-8"

/-- The gin `writeContentType`: sets the type unless one is there already. -/
def writeContentType (w : ResponseWriter) (value : String) : ResponseWriter :=
  if w.header.lookup "Content-Type" = none then
    { w with header := Header.Set w.header "Content-Type" value }
  else w

/-- The gin `c.JSON`, that is `c.Render(code, render.JSON)`: status, content
type, then the marshalled object unless the status allows no body. -/
def Context.JSON (c : Context) (code : Nat) (obj : H) : Context :=
  let c := c.Status code
  if !bodyAllowedForStatus code then
    { c with Writer := (writeContentType c.Writer jsonContentType).WriteHeaderNow }
  else
    { c with Writer := (writeContentType c.Writer jsonContentType).Write (jsonMarshal obj) }

/-- The gin `RouterGroup`: the middleware chain and the path prefix. -/
structure RouterGroup where
  Handlers : List HandlerFunc
  basePath : String

/-- One method tree of the engine, as the table of its registered paths. -/
structure methodTree where
  method : String
  routes : List (String × List HandlerFunc)

/-- The gin `Engine`, with the fields the program leaves at or sets from
their `gin.New` values.  `RedirectFixedPath`, `HandleMethodNotAllowed`,
`UseRawPath` and `RemoveExtraSlash` are off in `gin.New` and never turned on,
so their branches of the dispatch are absent. -/
structure Engine where
  group : RouterGroup
  RedirectTrailingSlash : Bool
  trees : List methodTree
  noRoute : List HandlerFunc
  allNoRoute : List HandlerFunc

/-- The gin `Logger()` middleware: runs the rest of the chain and then prints
an access log line; the response is untouched. -/
def Logger : HandlerFunc := fun next c => next c

/-- The gin `Recovery()` middleware: runs the rest of the chain under a
deferred `recover`; no handler of this program panics. -/
def Recovery : HandlerFunc := fun next c => next c

/-- The gin `engine.Use`: appends to the group's chain and rebuilds the chain
used for unmatched requests. -/
def Engine.Use (engine : Engine) (middleware : List HandlerFunc) : Engine :=
  let handlers := engine.group.Handlers ++ middleware
  { engine with
    group := { engine.group with Handlers := handlers }
    allNoRoute := handlers ++ engine.noRoute }

/-- The gin `New`: an empty engine rooted at `/`.  `gin.New` turns
`RedirectTrailingSlash` on, and `main` leaves it so. -/
def New : Engine :=
  { group := { Handlers := [], basePath := "/" }
    RedirectTrailingSlash := true
    trees := []
    noRoute := []
    allNoRoute := [] }

/-- The gin `Default`. -/
def Default : Engine :=
  New.Use [Logger, Recovery]

/-- The gin `joinPaths`. -/
def joinPaths (absolutePath relativePath : String) : String :=
  if relativePath = "" then absolutePath
  else
    let finalPath := pathJoin [absolutePath, relativePath]
    if endsWith relativePath '/' ∧ !endsWith finalPath '/' then finalPath ++ "/" else finalPath

/-- The gin `Group`: a group that starts from the chain registered so far. -/
def Engine.Group (engine : Engine) (relativePath : String) : RouterGroup :=
  { Handlers := engine.group.Handlers
    basePath := joinPaths engine.group.basePath relativePath }

/-- The gin `engine.addRoute`: the method's tree is created on first use. -/
def Engine.addRoute (engine : Engine) (method path : String) (handlers : List HandlerFunc) :
    Engine :=
  if engine.trees.any (fun t => t.method = method) then
    { engine with trees := engine.trees.map fun t =>
        if t.method = method then { t with routes := t.routes ++ [(path, handlers)] } else t }
  else
    { engine with trees := engine.trees ++ [{ method := method, routes := [(path, handlers)] }] }

/-- The gin `group.GET`: the route is the group's prefix joined with the
relative path, its chain the group's chain followed by the handler. -/
def Engine.GET (engine : Engine) (group : RouterGroup) (relativePath : String)
    (handler : HandlerFunc) : Engine :=
  engine.addRoute "GET" (joinPaths group.basePath relativePath) (group.Handlers ++ [handler])

/-- Result of the route lookup, gin `nodeValue`. -/
structure nodeValue where
  handlers : Option (List HandlerFunc)
  tsr : Bool

/-- The gin `getValue` on a tree of static routes: the chain of the route
equal to `path`; failing that, `tsr` recommends a redirect when the path with
one trailing slash added or removed is a registered route. -/
def getValue (routes : List (String × List HandlerFunc)) (path : String) : nodeValue :=
  match routes.lookup path with
  | some hs => { handlers := some hs, tsr := false }
  | none =>
    { handlers := none
      tsr := routes.any fun r => r.1 = path ++ "/" ∨ r.1 ++ "/" = path }

/-- The gin `default404Body`. -/
def default404Body : String := "404 page not found"

/-- The gin `serveError`: runs the chain under the error status and writes
the default message if the chain wrote nothing and kept the status. -/
def serveError (c : Context) (handlers : List HandlerFunc) (code : Nat)
    (defaultMessage : String) : Context :=
  let c := { c with Writer := { c.Writer with status := code } }
  let c := c.Next handlers
  if c.Writer.Written then c
  else if c.Writer.status = code then
    let w := { c.Writer with header := Header.Set c.Writer.header "Content-Type" "text/plain" }
    { c with Writer := w.Write defaultMessage }
  else { c with Writer := c.Writer.WriteHeaderNow }

/-- The gin `redirectRequest`: 301 for `GET`, 307 otherwise, through
`http.Redirect`; no handler chain runs. -/
def redirectRequest (c : Context) : Context :=
  let req := c.Request
  let rURL := req.URL.String
  let code := if req.Method ≠ "GET" then 307 else 301
  { c with Writer := (httpRedirect c.Writer req.Method req.URL.Path rURL code).WriteHeaderNow }

/-- The gin `redirectTrailingSlash`: the path loses its trailing slash, or
gains one, and the request is redirected there.  The rewriting of the target
under an `X-Forwarded-Prefix` request header is left out; it changes the
target of the redirect only, not its status or the headers it sets. -/
def redirectTrailingSlash (c : Context) : Context :=
  let p := c.Request.URL.Path
  let path := if 1 < p.utf8ByteSize ∧ endsWith p '/' then String.mk p.data.dropLast else p ++ "/"
  redirectRequest { c with Request := { c.Request with URL := { c.Request.URL with Path := path } } }

/-- The gin `engine.handleHTTPRequest`: the tree of the request's method is
searched for the path.  A route found runs its chain.  Otherwise, when the
lookup recommends a trailing-slash redirect and the engine has them on, the
request is redirected at once, no chain being run; in every other case the
no-route chain runs under status 404. -/
def Engine.handleHTTPRequest (engine : Engine) (c : Context) : Context :=
  let httpMethod := c.Request.Method
  let rPath := c.Request.URL.Path
  match engine.trees.find? (fun t => t.method = httpMethod) with
  | some t =>
    let value := getValue t.routes rPath
    match value.handlers with
    | some handlers =>
      let c := c.Next handlers
      { c with Writer := c.Writer.WriteHeaderNow }
    | none =>
      if httpMethod ≠ "CONNECT" ∧ rPath ≠ "/" ∧ value.tsr ∧ engine.RedirectTrailingSlash then
        redirectTrailingSlash c
      else serveError c engine.allNoRoute 404 default404Body
  | none => serveError c engine.allNoRoute 404 default404Body

/-- The gin `engine.ServeHTTP`: a fresh context and writer for the request,
the dispatch, and the response the client gets. -/
def Engine.ServeHTTP (engine : Engine) (req : Request) : Response :=
  let c : Context := { Request := req, Writer := { reqMethod := req.Method }, index := -1 }
  (engine.handleHTTPRequest c).Writer.response

/-! ## `main.go` -/

/-- The process environment: `os.LookupEnv`. -/
abbrev Env := String → Option String

/-- Go `os.Getenv`: the value, or the empty string when the variable is unset. -/
def Getenv (env : Env) (key : String) : String :=
  (env key).getD ""

/-- The CORS middleware closure of `main`. -/
def corsMiddleware : HandlerFunc := fun next c =>
  let c := c.Header "Access-Control-Allow-Origin" "*"
  let c := c.Header "Access-Control-Allow-Methods" "GET, POST, PUT, DELETE, OPTIONS"
  let c := c.Header "Access-Control-Allow-Headers" "Content-Type, Authorization"
  if c.Request.Method = "OPTIONS" then
    c.AbortWithStatus 204
  else
    next c

/-- The handler closure of `GET /health`. -/
def healthHandler : HandlerFunc := fun _ c =>
  c.JSON 200 [("status", "ok"), ("message", "서버가 정상 작동 중입니다")]

/-- The handler closure of `GET /hello`. -/
def helloHandler : HandlerFunc := fun _ c =>
  c.JSON 200 [("message", "Hello from Go Backend!")]

/-- What `main` has set up when it reaches `r.Run`: the lines given to the
`log` package, the local variable `port`, the address passed to `r.Run`, and
the engine that serves. -/
structure Process where
  log : List String
  port : String
  addr : String
  handler : Engine

/-- The function `main`.  `godotenvLoad` is `godotenv.Load` as an effect on
the environment, returning the new environment and whether it failed; `env`
is the environment of the process at start. -/
def main (godotenvLoad : Env → Env × Bool) (env : Env) : Process :=
  let loaded := godotenvLoad env
  let env := loaded.1
  let err := loaded.2
  let log := if err then ["No .env file found"] else []
  let port := Getenv env "PORT"
  let port := if port = "" then "8080" else port
  let r := Default
  let r := r.Use [corsMiddleware]
  let api := r.Group "/api/v1"
  let r := r.GET api "/health" healthHandler
  let r := r.GET api "/hello" helloHandler
  let log := log ++ ["서버가 포트 " ++ port ++ "에서 시작됩니다"]
  { log := log, port := port, addr := ":" ++ port, handler := r }

/-- The response of the running server to a request that reaches the engine. -/
def serve (godotenvLoad : Env → Env × Bool) (env : Env) (req : Request) : Response :=
  (main godotenvLoad env).handler.ServeHTTP req

/-- The effect of `godotenv.Load` when there is no `.env` file: the
environment is unchanged and an error comes back. -/
def loadNoFile : Env → Env × Bool := fun env => (env, true)

/-- A process environment in which no variable is set. -/
def emptyEnv : Env := fun _ => none

/-- A process environment in which `PORT` is set to `abc`. -/
def envPortWord : Env := fun key => if key = "PORT" then some "abc" else none

/-! ## Sample requests -/

/-- A preflight request for a path that is no route. -/
def optionsUnrouted : Request :=
  { Method := "OPTIONS", URL := { Path := "/not/a/route" }
    Header := [("Origin", "https://example.org"), ("Access-Control-Request-Method", "POST")] }

/-- A `POST` to the path of the health route. -/
def postHealth : Request :=
  { Method := "POST", URL := { Path := "/api/v1/health" }, Body := "ping" }

/-- A `GET` of the health route, with a query string. -/
def getHealth : Request :=
  { Method := "GET", URL := { Path := "/api/v1/health", RawQuery := "probe=1" } }

/-- The same `GET` of the health route with other headers, query and body. -/
def getHealthVaried : Request :=
  { Method := "GET", URL := { Path := "/api/v1/health", RawQuery := "probe=2" }
    Header := [("Origin", "https://example.org"), ("Authorization", "Bearer token")]
    Body := "ignored" }

/-- A `GET` of the hello route. -/
def getHello : Request :=
  { Method := "GET", URL := { Path := "/api/v1/hello" } }

/-- A `GET` of the health route's path with a slash appended. -/
def getHealthSlash : Request :=
  { Method := "GET", URL := { Path := "/api/v1/health/" } }

/-- A `GET` of the hello route's path with a slash appended. -/
def getHelloSlash : Request :=
  { Method := "GET", URL := { Path := "/api/v1/hello/" } }

/-- A `GET` of the health route's path with a slash appended and query `a=1`. -/
def getHealthSlashOne : Request :=
  { Method := "GET", URL := { Path := "/api/v1/health/", RawQuery := "a=1" } }

/-- A `GET` of the health route's path with a slash appended and query `a=2`. -/
def getHealthSlashTwo : Request :=
  { Method := "GET", URL := { Path := "/api/v1/health/", RawQuery := "a=2" } }

/-- A `GET` of a path under the prefix that is no route. -/
def getNonexistent : Request :=
  { Method := "GET", URL := { Path := "/api/v1/nonexistent" } }

/-! ## Closed form of the responses

The five shapes a response of the server can take, and the table that picks
one from the request.  `serve_eq_responseTable` below proves the table equal
to `serve`. -/

/-- The three headers the CORS middleware sets, in the order it sets them. -/
def corsHeader : Header :=
  [("Access-Control-Allow-Origin", "*"),
   ("Access-Control-Allow-Methods", "GET, POST, PUT, DELETE, OPTIONS"),
   ("Access-Control-Allow-Headers", "Content-Type, Authorization")]

/-- The reply to a preflight request. -/
def preflightResponse : Response :=
  { status := 204, header := corsHeader, body := "" }

/-- The reply of a route handler that sends `obj` with `c.JSON(200, obj)`. -/
def jsonResponse (obj : H) : Response :=
  { status := 200
    header := corsHeader ++ [("Content-Type", "application/json; charset=utf-8")]
    body := jsonMarshal obj }

/-- The reply to a request without route; `net/http` sends no body to `HEAD`. -/
def notFoundResponse (method : String) : Response :=
  { status := 404
    header := corsHeader ++ [("Content-Type", "text/plain")]
    body := if method = "HEAD" then "" else "404 page not found" }

/-- The trailing-slash redirect of a `GET` request to the route `target`. -/
def redirectResponse (target : String) (u : URL) : Response :=
  let url := target ++ (if u.ForceQuery ∨ u.RawQuery ≠ "" then "?" ++ u.RawQuery else "")
  { status := 301
    header := [("Location", hexEscapeNonASCII url), ("Content-Type", "text/html; charset=utf-8")]
    body := "<a href=\"" ++ htmlEscape url ++ "\">" ++ "Moved Permanently" ++ "</a>.\n" ++ "\n" }

/-- The response as a table over method and path. -/
def responseTable (req : Request) : Response :=
  if req.Method = "OPTIONS" then preflightResponse
  else if req.Method = "GET" then
    if req.URL.Path = "/api/v1/health" then
      jsonResponse [("status", "ok"), ("message", "서버가 정상 작동 중입니다")]
    else if req.URL.Path = "/api/v1/hello" then
      jsonResponse [("message", "Hello from Go Backend!")]
    else if req.URL.Path = "/api/v1/health/" then redirectResponse "/api/v1/health" req.URL
    else if req.URL.Path = "/api/v1/hello/" then redirectResponse "/api/v1/hello" req.URL
    else notFoundResponse "GET"
  else notFoundResponse req.Method

/-! ## The engine that `main` builds -/

theorem engine_trees (load : Env → Env × Bool) (env : Env) :
    (main load env).handler.trees =
      [{ method := "GET"
         routes :=
          [("/api/v1/health", [Logger, Recovery, corsMiddleware, healthHandler]),
           ("/api/v1/hello", [Logger, Recovery, corsMiddleware, helloHandler])] }] :=
  rfl

theorem engine_allNoRoute (load : Env → Env × Bool) (env : Env) :
    (main load env).handler.allNoRoute = [Logger, Recovery, corsMiddleware] :=
  rfl

theorem engine_redirectTrailingSlash (load : Env → Env × Bool) (env : Env) :
    (main load env).handler.RedirectTrailingSlash = true :=
  rfl

/-! ## The response, case by case -/

theorem serve_options (load : Env → Env × Bool) (env : Env) (req : Request)
    (h : req.Method = "OPTIONS") : serve load env req = preflightResponse := by
  obtain ⟨m, u, hd, b⟩ := req
  simp only at h
  subst h
  rfl

theorem serve_health (load : Env → Env × Bool) (env : Env) (req : Request)
    (h : req.Method = "GET") (hp : req.URL.Path = "/api/v1/health") :
    serve load env req = jsonResponse [("status", "ok"), ("message", "서버가 정상 작동 중입니다")] := by
  obtain ⟨m, ⟨p, q, f⟩, hd, b⟩ := req
  simp only at h hp
  subst h hp
  rfl

theorem serve_hello (load : Env → Env × Bool) (env : Env) (req : Request)
    (h : req.Method = "GET") (hp : req.URL.Path = "/api/v1/hello") :
    serve load env req = jsonResponse [("message", "Hello from Go Backend!")] := by
  obtain ⟨m, ⟨p, q, f⟩, hd, b⟩ := req
  simp only at h hp
  subst h hp
  rfl

theorem urlString_route (t q : String) (f : Bool)
    (ht : t = "/api/v1/health" ∨ t = "/api/v1/hello") :
    URL.String { Path := t, RawQuery := q, ForceQuery := f } =
      t ++ (if f = true ∨ q ≠ "" then "?" ++ q else "") := by
  by_cases hq : f = true ∨ q ≠ ""
  · rcases ht with rfl | rfl <;> (simp only [URL.String, if_pos hq]; rfl)
  · rcases ht with rfl | rfl <;> (simp only [URL.String, if_neg hq]; rfl)

theorem httpRedirect_query (t q : String) (ht : t = "/api/v1/health" ∨ t = "/api/v1/hello") :
    ((httpRedirect { reqMethod := "GET" } "GET" t (t ++ ("?" ++ q)) 301).WriteHeaderNow).response =
      { status := 301
        header :=
          [("Location", hexEscapeNonASCII (t ++ ("?" ++ q))),
           ("Content-Type", "text/html; charset=utf-8")]
        body :=
          "<a href=\"" ++ htmlEscape (t ++ ("?" ++ q)) ++ "\">" ++ "Moved Permanently" ++ "</a>.\n"
            ++ "\n" } := by
  obtain ⟨qs⟩ := q
  rcases ht with rfl | rfl <;> rfl

theorem serve_health_slash (load : Env → Env × Bool) (env : Env) (req : Request)
    (h : req.Method = "GET") (hp : req.URL.Path = "/api/v1/health/") :
    serve load env req = redirectResponse "/api/v1/health" req.URL := by
  obtain ⟨m, ⟨p, q, f⟩, hd, b⟩ := req
  simp only at h hp
  subst h hp
  have h1 : serve load env
      { Method := "GET", URL := { Path := "/api/v1/health/", RawQuery := q, ForceQuery := f },
        Header := hd, Body := b } =
      ((httpRedirect { reqMethod := "GET" } "GET" "/api/v1/health"
        (URL.String { Path := "/api/v1/health", RawQuery := q, ForceQuery := f })
        301).WriteHeaderNow).response := rfl
  rw [h1, urlString_route _ q f (Or.inl rfl)]
  by_cases hq : f = true ∨ q ≠ ""
  · simp only [redirectResponse, if_pos hq]
    exact httpRedirect_query _ q (Or.inl rfl)
  · simp only [redirectResponse, if_neg hq]
    rfl

theorem serve_hello_slash (load : Env → Env × Bool) (env : Env) (req : Request)
    (h : req.Method = "GET") (hp : req.URL.Path = "/api/v1/hello/") :
    serve load env req = redirectResponse "/api/v1/hello" req.URL := by
  obtain ⟨m, ⟨p, q, f⟩, hd, b⟩ := req
  simp only at h hp
  subst h hp
  have h1 : serve load env
      { Method := "GET", URL := { Path := "/api/v1/hello/", RawQuery := q, ForceQuery := f },
        Header := hd, Body := b } =
      ((httpRedirect { reqMethod := "GET" } "GET" "/api/v1/hello"
        (URL.String { Path := "/api/v1/hello", RawQuery := q, ForceQuery := f })
        301).WriteHeaderNow).response := rfl
  rw [h1, urlString_route _ q f (Or.inr rfl)]
  by_cases hq : f = true ∨ q ≠ ""
  · simp only [redirectResponse, if_pos hq]
    exact httpRedirect_query _ q (Or.inr rfl)
  · simp only [redirectResponse, if_neg hq]
    rfl

theorem serveError_noRoute (req : Request) (h : req.Method ≠ "OPTIONS") :
    (serveError { Request := req, Writer := { reqMethod := req.Method }, index := -1 }
      [Logger, Recovery, corsMiddleware] 404 default404Body).Writer.response =
      notFoundResponse req.Method := by
  by_cases hh : req.Method = "HEAD" <;>
    simp [serveError, Context.Next, Context.run, Logger, Recovery, corsMiddleware,
      Context.Header, Header.Set, Header.Del, ResponseWriter.Written, ResponseWriter.Write,
      ResponseWriter.WriteHeaderNow, ResponseWriter.response, bodyAllowedForStatus,
      default404Body, h, hh, notFoundResponse, corsHeader]

theorem serve_other_method (load : Env → Env × Bool) (env : Env) (req : Request)
    (h : req.Method ≠ "OPTIONS") (hg : req.Method ≠ "GET") :
    serve load env req = notFoundResponse req.Method := by
  have hg2 : ¬ "GET" = req.Method := fun e => hg e.symm
  rw [← serveError_noRoute req h]
  simp [serve, Engine.ServeHTTP, Engine.handleHTTPRequest, engine_trees, engine_allNoRoute, hg2]

theorem ne_append_slash (s p : String) (hs : endsWith s '/' = false) : s ≠ p ++ "/" := by
  intro e
  have h2 : endsWith (p ++ "/") '/' = true := by
    simp [endsWith, String.data_append]
  rw [← e, hs] at h2
  exact Bool.noConfusion h2

theorem serve_get_miss (load : Env → Env × Bool) (env : Env) (req : Request)
    (h : req.Method = "GET") (h1 : req.URL.Path ≠ "/api/v1/health")
    (h2 : req.URL.Path ≠ "/api/v1/hello") (h3 : req.URL.Path ≠ "/api/v1/health/")
    (h4 : req.URL.Path ≠ "/api/v1/hello/") :
    serve load env req = notFoundResponse "GET" := by
  have ho : req.Method ≠ "OPTIONS" := by rw [h]; decide
  have a1 := ne_append_slash "/api/v1/health" req.URL.Path (by decide)
  have a2 := ne_append_slash "/api/v1/hello" req.URL.Path (by decide)
  have b1 : ¬ (req.URL.Path == "/api/v1/health") = true := by simpa using h1
  have b2 : ¬ (req.URL.Path == "/api/v1/hello") = true := by simpa using h2
  have c3 : ¬ "/api/v1/health/" = req.URL.Path := fun e => h3 e.symm
  have c4 : ¬ "/api/v1/hello/" = req.URL.Path := fun e => h4 e.symm
  have key := serveError_noRoute req ho
  rw [h] at key
  rw [← key]
  simp [serve, Engine.ServeHTTP, Engine.handleHTTPRequest, engine_trees, engine_allNoRoute,
    getValue, List.lookup, h, b1, b2, a1, a2, c3, c4]

theorem serve_eq_responseTable (load : Env → Env × Bool) (env : Env) (req : Request) :
    serve load env req = responseTable req := by
  unfold responseTable
  by_cases ho : req.Method = "OPTIONS"
  · rw [if_pos ho]; exact serve_options load env req ho
  rw [if_neg ho]
  by_cases hg : req.Method = "GET"
  · rw [if_pos hg]
    by_cases h1 : req.URL.Path = "/api/v1/health"
    · rw [if_pos h1]; exact serve_health load env req hg h1
    rw [if_neg h1]
    by_cases h2 : req.URL.Path = "/api/v1/hello"
    · rw [if_pos h2]; exact serve_hello load env req hg h2
    rw [if_neg h2]
    by_cases h3 : req.URL.Path = "/api/v1/health/"
    · rw [if_pos h3]; exact serve_health_slash load env req hg h3
    rw [if_neg h3]
    by_cases h4 : req.URL.Path = "/api/v1/hello/"
    · rw [if_pos h4]; exact serve_hello_slash load env req hg h4
    rw [if_neg h4]
    exact serve_get_miss load env req hg h1 h2 h3 h4
  · rw [if_neg hg]; exact serve_other_method load env req ho hg

/-! ## Startup: port selection -/

/-- C6: when `PORT` is not set in the environment that `main` reads (the
process environment after `godotenv.Load`), the port chosen is `8080` and
the address given to `r.Run` is `:8080`. -/
theorem default_port (load : Env → Env × Bool) (env : Env)
    (h : (load env).1 "PORT" = none) :
    (main load env).port = "8080" ∧ (main load env).addr = ":8080" := by
  simp [main, Getenv, h]

theorem default_port_witness :
    (loadNoFile emptyEnv).1 "PORT" = none ∧
      (main loadNoFile emptyEnv).port = "8080" ∧ (main loadNoFile emptyEnv).addr = ":8080" :=
  ⟨rfl, default_port loadNoFile emptyEnv rfl⟩

/-- C9: `main` does not validate `PORT`.  Whatever non-empty string `p` the
variable holds, the port is `p` and the listen address is `:` followed by `p`
unchanged; when the variable is unset or set to the empty string the port is
`8080` and the address `:8080`; and the address is `:` followed by the value
`os.Getenv` returns exactly when the variable is neither unset nor empty. -/
theorem port_not_validated (load : Env → Env × Bool) (env : Env) :
    (∀ p : String, (load env).1 "PORT" = some p → p ≠ "" →
      (main load env).port = p ∧ (main load env).addr = ":" ++ p) ∧
    ((load env).1 "PORT" = none ∨ (load env).1 "PORT" = some "" →
      (main load env).port = "8080" ∧ (main load env).addr = ":8080") ∧
    ((main load env).addr = ":" ++ Getenv (load env).1 "PORT" ↔
      ¬ ((load env).1 "PORT" = none ∨ (load env).1 "PORT" = some "")) := by
  have hne : (":8080" : String) ≠ ":" := by decide
  refine ⟨?_, ?_, ?_⟩
  · intro p hp hp2
    simp [main, Getenv, hp, hp2]
  · rintro (h | h) <;> simp [main, Getenv, h]
  · cases hv : (load env).1 "PORT" with
    | none => simp [main, Getenv, hv, hne]
    | some v =>
      by_cases hv2 : v = ""
      · simp [main, Getenv, hv, hv2, hne]
      · simp [main, Getenv, hv, hv2]

theorem port_not_validated_witness :
    (loadNoFile envPortWord).1 "PORT" = some "abc" ∧
    (main loadNoFile envPortWord).port = "abc" ∧ (main loadNoFile envPortWord).addr = ":abc" :=
  ⟨rfl, (port_not_validated loadNoFile envPortWord).1 "abc" rfl (by decide)⟩

/-! ## Requests -/

/-- C1: every request with method `OPTIONS`, to any path, gets status 204,
an empty body, and the three CORS headers with their fixed values. -/
theorem options_preflight (load : Env → Env × Bool) (env : Env) (req : Request)
    (h : req.Method = "OPTIONS") :
    (serve load env req).status = 204 ∧
    (serve load env req).body = "" ∧
    (serve load env req).header.lookup "Access-Control-Allow-Origin" = some "*" ∧
    (serve load env req).header.lookup "Access-Control-Allow-Methods" =
      some "GET, POST, PUT, DELETE, OPTIONS" ∧
    (serve load env req).header.lookup "Access-Control-Allow-Headers" =
      some "Content-Type, Authorization" := by
  rw [serve_options load env req h]
  decide

theorem options_preflight_witness :
    optionsUnrouted.Method = "OPTIONS" ∧
    (serve loadNoFile emptyEnv optionsUnrouted).status = 204 ∧
    (serve loadNoFile emptyEnv optionsUnrouted).body = "" ∧
    (serve loadNoFile emptyEnv optionsUnrouted).header.lookup "Access-Control-Allow-Origin" =
      some "*" ∧
    (serve loadNoFile emptyEnv optionsUnrouted).header.lookup "Access-Control-Allow-Methods" =
      some "GET, POST, PUT, DELETE, OPTIONS" ∧
    (serve loadNoFile emptyEnv optionsUnrouted).header.lookup "Access-Control-Allow-Headers" =
      some "Content-Type, Authorization" :=
  ⟨rfl, options_preflight loadNoFile emptyEnv optionsUnrouted rfl⟩

/-- C2, as the code has it: every request carries the three CORS headers
with their fixed values, except a `GET` for `/api/v1/health/` or
`/api/v1/hello/`, which the engine redirects before any middleware runs. -/
theorem cors_headers_unless_redirected (load : Env → Env × Bool) (env : Env) (req : Request)
    (h : ¬ (req.Method = "GET" ∧
      (req.URL.Path = "/api/v1/health/" ∨ req.URL.Path = "/api/v1/hello/"))) :
    (serve load env req).header.lookup "Access-Control-Allow-Origin" = some "*" ∧
    (serve load env req).header.lookup "Access-Control-Allow-Methods" =
      some "GET, POST, PUT, DELETE, OPTIONS" ∧
    (serve load env req).header.lookup "Access-Control-Allow-Headers" =
      some "Content-Type, Authorization" := by
  rw [serve_eq_responseTable]
  unfold responseTable
  split_ifs with ho hg h1 h2 h3 h4
  · decide
  · decide
  · decide
  · exact absurd ⟨hg, Or.inl h3⟩ h
  · exact absurd ⟨hg, Or.inr h4⟩ h
  · decide
  · exact ⟨rfl, rfl, rfl⟩

theorem cors_headers_unless_redirected_witness :
    ¬ (postHealth.Method = "GET" ∧
      (postHealth.URL.Path = "/api/v1/health/" ∨ postHealth.URL.Path = "/api/v1/hello/")) ∧
    (serve loadNoFile emptyEnv postHealth).header.lookup "Access-Control-Allow-Origin" =
      some "*" ∧
    (serve loadNoFile emptyEnv postHealth).header.lookup "Access-Control-Allow-Methods" =
      some "GET, POST, PUT, DELETE, OPTIONS" ∧
    (serve loadNoFile emptyEnv postHealth).header.lookup "Access-Control-Allow-Headers" =
      some "Content-Type, Authorization" :=
  ⟨by decide, cors_headers_unless_redirected loadNoFile emptyEnv postHealth (by decide)⟩

/-- C2 fails as stated: the reply to `GET /api/v1/health/` is the 301 of the
trailing-slash redirect and has none of the three CORS headers. -/
theorem cors_headers_missing_on_redirect :
    (serve loadNoFile emptyEnv getHealthSlash).status = 301 ∧
    (serve loadNoFile emptyEnv getHealthSlash).header.lookup "Access-Control-Allow-Origin" =
      none ∧
    (serve loadNoFile emptyEnv getHealthSlash).header.lookup "Access-Control-Allow-Methods" =
      none ∧
    (serve loadNoFile emptyEnv getHealthSlash).header.lookup "Access-Control-Allow-Headers" =
      none := by
  decide

/-- C3: every `GET` request for `/api/v1/health` gets status 200 and, as
body, the JSON object with exactly the keys `status`, of value `ok`, and
`message`, a non-empty string. -/
theorem health_ok (load : Env → Env × Bool) (env : Env) (req : Request)
    (h : req.Method = "GET") (hp : req.URL.Path = "/api/v1/health") :
    (serve load env req).status = 200 ∧
    (serve load env req).body =
      "\x7b\"message\":\"서버가 정상 작동 중입니다\",\"status\":\"ok\"\x7d" ∧
    ∃ message : String, message ≠ "" ∧
      (serve load env req).body = jsonMarshal [("status", "ok"), ("message", message)] := by
  rw [serve_health load env req h hp]
  exact ⟨rfl, by decide, "서버가 정상 작동 중입니다", by decide, rfl⟩

theorem health_ok_witness :
    getHealth.Method = "GET" ∧ getHealth.URL.Path = "/api/v1/health" ∧
    (serve loadNoFile emptyEnv getHealth).status = 200 ∧
    (serve loadNoFile emptyEnv getHealth).body =
      "\x7b\"message\":\"서버가 정상 작동 중입니다\",\"status\":\"ok\"\x7d" ∧
    ∃ message : String, message ≠ "" ∧
      (serve loadNoFile emptyEnv getHealth).body =
        jsonMarshal [("status", "ok"), ("message", message)] :=
  ⟨rfl, rfl, health_ok loadNoFile emptyEnv getHealth rfl rfl⟩

/-- C4: every `GET` request for `/api/v1/hello` gets status 200 and, as body,
the JSON object with the single key `message` of value
`Hello from Go Backend!`. -/
theorem hello_ok (load : Env → Env × Bool) (env : Env) (req : Request)
    (h : req.Method = "GET") (hp : req.URL.Path = "/api/v1/hello") :
    (serve load env req).status = 200 ∧
    (serve load env req).body = "\x7b\"message\":\"Hello from Go Backend!\"\x7d" ∧
    (serve load env req).body = jsonMarshal [("message", "Hello from Go Backend!")] := by
  rw [serve_hello load env req h hp]
  exact ⟨rfl, by decide, rfl⟩

theorem hello_ok_witness :
    getHello.Method = "GET" ∧ getHello.URL.Path = "/api/v1/hello" ∧
    (serve loadNoFile emptyEnv getHello).status = 200 ∧
    (serve loadNoFile emptyEnv getHello).body =
      "\x7b\"message\":\"Hello from Go Backend!\"\x7d" ∧
    (serve loadNoFile emptyEnv getHello).body =
      jsonMarshal [("message", "Hello from Go Backend!")] :=
  ⟨rfl, rfl, hello_ok loadNoFile emptyEnv getHello rfl rfl⟩

theorem redirect_body_ne_json (target : String) (u : URL) (obj : H) :
    (redirectResponse target u).body ≠ jsonMarshal obj := by
  intro e
  have h := congrArg (fun s : String => s.data.head?) e
  simp [redirectResponse, jsonMarshal, String.data_append] at h

theorem unmatched_request_status (load : Env → Env × Bool) (env : Env) (req : Request)
    (ho : req.Method ≠ "OPTIONS")
    (hr : ¬ (req.Method = "GET" ∧
      (req.URL.Path = "/api/v1/health" ∨ req.URL.Path = "/api/v1/hello"))) :
    (serve load env req).status =
      (if req.Method = "GET" ∧
          (req.URL.Path = "/api/v1/health/" ∨ req.URL.Path = "/api/v1/hello/")
        then 301 else 404) := by
  by_cases hg : req.Method = "GET"
  · have h1 : req.URL.Path ≠ "/api/v1/health" := fun e => hr ⟨hg, Or.inl e⟩
    have h2 : req.URL.Path ≠ "/api/v1/hello" := fun e => hr ⟨hg, Or.inr e⟩
    by_cases h3 : req.URL.Path = "/api/v1/health/"
    · rw [serve_health_slash load env req hg h3, if_pos ⟨hg, Or.inl h3⟩]
      rfl
    by_cases h4 : req.URL.Path = "/api/v1/hello/"
    · rw [serve_hello_slash load env req hg h4, if_pos ⟨hg, Or.inr h4⟩]
      rfl
    rw [serve_get_miss load env req hg h1 h2 h3 h4, if_neg (fun h => h.2.elim h3 h4)]
    rfl
  · rw [serve_other_method load env req ho hg, if_neg (fun h => hg h.1)]
    rfl

/-- C5, as the code has it: a request that is not `OPTIONS` and matches
neither route gets status 404, except a `GET` for `/api/v1/health/` or
`/api/v1/hello/`, which gets the 301 of the trailing-slash redirect; either
way the status is not a 2xx and the body is neither handler's body. -/
theorem unmatched_request (load : Env → Env × Bool) (env : Env) (req : Request)
    (ho : req.Method ≠ "OPTIONS")
    (hr : ¬ (req.Method = "GET" ∧
      (req.URL.Path = "/api/v1/health" ∨ req.URL.Path = "/api/v1/hello"))) :
    (serve load env req).status =
      (if req.Method = "GET" ∧
          (req.URL.Path = "/api/v1/health/" ∨ req.URL.Path = "/api/v1/hello/")
        then 301 else 404) ∧
    ¬ (200 ≤ (serve load env req).status ∧ (serve load env req).status ≤ 299) ∧
    (serve load env req).body ≠
      jsonMarshal [("status", "ok"), ("message", "서버가 정상 작동 중입니다")] ∧
    (serve load env req).body ≠ jsonMarshal [("message", "Hello from Go Backend!")] := by
  by_cases hg : req.Method = "GET"
  · have h1 : req.URL.Path ≠ "/api/v1/health" := fun e => hr ⟨hg, Or.inl e⟩
    have h2 : req.URL.Path ≠ "/api/v1/hello" := fun e => hr ⟨hg, Or.inr e⟩
    by_cases h3 : req.URL.Path = "/api/v1/health/"
    · rw [serve_health_slash load env req hg h3, if_pos ⟨hg, Or.inl h3⟩]
      exact ⟨rfl, by simp [redirectResponse], redirect_body_ne_json _ _ _,
        redirect_body_ne_json _ _ _⟩
    by_cases h4 : req.URL.Path = "/api/v1/hello/"
    · rw [serve_hello_slash load env req hg h4, if_pos ⟨hg, Or.inr h4⟩]
      exact ⟨rfl, by simp [redirectResponse], redirect_body_ne_json _ _ _,
        redirect_body_ne_json _ _ _⟩
    rw [serve_get_miss load env req hg h1 h2 h3 h4,
      if_neg (fun h => h.2.elim h3 h4)]
    exact ⟨rfl, by decide, by decide, by decide⟩
  · rw [serve_other_method load env req ho hg, if_neg (fun h => hg h.1)]
    refine ⟨rfl, by simp [notFoundResponse], ?_, ?_⟩ <;>
      simp only [notFoundResponse] <;> split_ifs <;> decide

theorem unmatched_request_witness :
    getNonexistent.Method ≠ "OPTIONS" ∧
    ¬ (getNonexistent.Method = "GET" ∧
      (getNonexistent.URL.Path = "/api/v1/health" ∨
        getNonexistent.URL.Path = "/api/v1/hello")) ∧
    (serve loadNoFile emptyEnv getNonexistent).status =
      (if getNonexistent.Method = "GET" ∧
          (getNonexistent.URL.Path = "/api/v1/health/" ∨
            getNonexistent.URL.Path = "/api/v1/hello/")
        then 301 else 404) ∧
    ¬ (200 ≤ (serve loadNoFile emptyEnv getNonexistent).status ∧
      (serve loadNoFile emptyEnv getNonexistent).status ≤ 299) ∧
    (serve loadNoFile emptyEnv getNonexistent).body ≠
      jsonMarshal [("status", "ok"), ("message", "서버가 정상 작동 중입니다")] ∧
    (serve loadNoFile emptyEnv getNonexistent).body ≠
      jsonMarshal [("message", "Hello from Go Backend!")] :=
  ⟨by decide, by decide,
   unmatched_request loadNoFile emptyEnv getNonexistent (by decide) (by decide)⟩

/-- C5 fails as stated: `GET /api/v1/hello/` is not `OPTIONS` and matches no
route, and its status is 301, not 404. -/
theorem unmatched_request_redirected :
    getHelloSlash.Method ≠ "OPTIONS" ∧
    ¬ (getHelloSlash.Method = "GET" ∧
      (getHelloSlash.URL.Path = "/api/v1/health" ∨ getHelloSlash.URL.Path = "/api/v1/hello")) ∧
    (serve loadNoFile emptyEnv getHelloSlash).status = 301 ∧
    (serve loadNoFile emptyEnv getHelloSlash).status ≠ 404 := by
  decide

/-- C7, as the code has it: the status is 204 for every `OPTIONS` request and
200 for every `GET` of one of the two routes; every other request gets 404,
or 301 when it is a `GET` of a route path with a slash appended.  No request
gets a 5xx status. -/
theorem status_by_method_and_path (load : Env → Env × Bool) (env : Env) (req : Request) :
    (serve load env req).status =
      (if req.Method = "OPTIONS" then 204
       else if req.Method = "GET" ∧
          (req.URL.Path = "/api/v1/health" ∨ req.URL.Path = "/api/v1/hello") then 200
       else if req.Method = "GET" ∧
          (req.URL.Path = "/api/v1/health/" ∨ req.URL.Path = "/api/v1/hello/") then 301
       else 404) ∧
    (serve load env req).status < 500 := by
  by_cases ho : req.Method = "OPTIONS"
  · rw [serve_options load env req ho, if_pos ho]
    exact ⟨rfl, by decide⟩
  rw [if_neg ho]
  by_cases hr : req.Method = "GET" ∧
      (req.URL.Path = "/api/v1/health" ∨ req.URL.Path = "/api/v1/hello")
  · rw [if_pos hr]
    rcases hr with ⟨hg, h1 | h2⟩
    · rw [serve_health load env req hg h1]
      exact ⟨rfl, by decide⟩
    · rw [serve_hello load env req hg h2]
      exact ⟨rfl, by decide⟩
  rw [if_neg hr]
  have h := (unmatched_request_status load env req ho hr)
  rw [h]
  refine ⟨rfl, ?_⟩
  split_ifs <;> decide

/-- C7 fails as stated: `GET /api/v1/nonexistent` gets status 404, which is
neither 200 nor 204. -/
theorem not_found_status :
    (serve loadNoFile emptyEnv getNonexistent).status = 404 ∧
    ¬ ((serve loadNoFile emptyEnv getNonexistent).status = 200 ∨
      (serve loadNoFile emptyEnv getNonexistent).status = 204) := by
  decide

/-- C8, as the code has it: for every `GET` of `/api/v1/health` and of
`/api/v1/hello` the `Content-Type` header is
`application/json; charset=utf-8`. -/
theorem json_content_type (load : Env → Env × Bool) (env : Env) (req : Request)
    (h : req.Method = "GET")
    (hp : req.URL.Path = "/api/v1/health" ∨ req.URL.Path = "/api/v1/hello") :
    (serve load env req).header.lookup "Content-Type" =
      some "application/json; charset=utf-8" := by
  rcases hp with h1 | h2
  · rw [serve_health load env req h h1]
    decide
  · rw [serve_hello load env req h h2]
    decide

theorem json_content_type_witness :
    getHello.Method = "GET" ∧
    (getHello.URL.Path = "/api/v1/health" ∨ getHello.URL.Path = "/api/v1/hello") ∧
    (serve loadNoFile emptyEnv getHello).header.lookup "Content-Type" =
      some "application/json; charset=utf-8" :=
  ⟨rfl, Or.inr rfl, json_content_type loadNoFile emptyEnv getHello rfl (Or.inr rfl)⟩

/-- C8 fails as stated: the `Content-Type` of the reply to
`GET /api/v1/health` is `application/json; charset=utf-8`, which is not the
value `application/json`. -/
theorem json_content_type_has_charset :
    (serve loadNoFile emptyEnv getHealth).header.lookup "Content-Type" =
      some "application/json; charset=utf-8" ∧
    (serve loadNoFile emptyEnv getHealth).header.lookup "Content-Type" ≠
      some "application/json" := by
  decide

/-- C10, as the code has it: two requests with the same method and the same
path get the same status and the same CORS headers, whatever their headers,
query and body; and they get the same response altogether unless they are a
`GET` of `/api/v1/health/` or `/api/v1/hello/`, whose redirect repeats the
query string in its `Location` header and body. -/
theorem response_by_method_and_path (load : Env → Env × Bool) (env : Env) (r1 r2 : Request)
    (hm : r1.Method = r2.Method) (hp : r1.URL.Path = r2.URL.Path) :
    (serve load env r1).status = (serve load env r2).status ∧
    (serve load env r1).header.lookup "Access-Control-Allow-Origin" =
      (serve load env r2).header.lookup "Access-Control-Allow-Origin" ∧
    (serve load env r1).header.lookup "Access-Control-Allow-Methods" =
      (serve load env r2).header.lookup "Access-Control-Allow-Methods" ∧
    (serve load env r1).header.lookup "Access-Control-Allow-Headers" =
      (serve load env r2).header.lookup "Access-Control-Allow-Headers" ∧
    (¬ (r1.Method = "GET" ∧
        (r1.URL.Path = "/api/v1/health/" ∨ r1.URL.Path = "/api/v1/hello/")) →
      serve load env r1 = serve load env r2) := by
  rw [serve_eq_responseTable, serve_eq_responseTable]
  unfold responseTable
  rw [← hm, ← hp]
  split_ifs with ho hg h1 h2 h3 h4
  · exact ⟨rfl, rfl, rfl, rfl, fun _ => rfl⟩
  · exact ⟨rfl, rfl, rfl, rfl, fun _ => rfl⟩
  · exact ⟨rfl, rfl, rfl, rfl, fun _ => rfl⟩
  · exact ⟨rfl, rfl, rfl, rfl, fun hn => absurd ⟨hg, Or.inl h3⟩ hn⟩
  · exact ⟨rfl, rfl, rfl, rfl, fun hn => absurd ⟨hg, Or.inr h4⟩ hn⟩
  · exact ⟨rfl, rfl, rfl, rfl, fun _ => rfl⟩
  · exact ⟨rfl, rfl, rfl, rfl, fun _ => rfl⟩

theorem response_by_method_and_path_witness :
    getHealth.Method = getHealthVaried.Method ∧
    getHealth.URL.Path = getHealthVaried.URL.Path ∧
    (serve loadNoFile emptyEnv getHealth).status =
      (serve loadNoFile emptyEnv getHealthVaried).status ∧
    (serve loadNoFile emptyEnv getHealth).header.lookup "Access-Control-Allow-Origin" =
      (serve loadNoFile emptyEnv getHealthVaried).header.lookup "Access-Control-Allow-Origin" ∧
    (serve loadNoFile emptyEnv getHealth).header.lookup "Access-Control-Allow-Methods" =
      (serve loadNoFile emptyEnv getHealthVaried).header.lookup "Access-Control-Allow-Methods" ∧
    (serve loadNoFile emptyEnv getHealth).header.lookup "Access-Control-Allow-Headers" =
      (serve loadNoFile emptyEnv getHealthVaried).header.lookup "Access-Control-Allow-Headers" ∧
    (¬ (getHealth.Method = "GET" ∧
        (getHealth.URL.Path = "/api/v1/health/" ∨ getHealth.URL.Path = "/api/v1/hello/")) →
      serve loadNoFile emptyEnv getHealth = serve loadNoFile emptyEnv getHealthVaried) :=
  ⟨rfl, rfl, response_by_method_and_path loadNoFile emptyEnv getHealth getHealthVaried rfl rfl⟩

/-- C10 fails as stated: two `GET` requests for `/api/v1/health/` that differ
only in their query string get different bodies. -/
theorem redirect_body_repeats_query :
    getHealthSlashOne.Method = getHealthSlashTwo.Method ∧
    getHealthSlashOne.URL.Path = getHealthSlashTwo.URL.Path ∧
    (serve loadNoFile emptyEnv getHealthSlashOne).body =
      "<a href=\"/api/v1/health?a=1\">Moved Permanently</a>.\n\n" ∧
    (serve loadNoFile emptyEnv getHealthSlashTwo).body =
      "<a href=\"/api/v1/health?a=2\">Moved Permanently</a>.\n\n" ∧
    (serve loadNoFile emptyEnv getHealthSlashOne).body ≠
      (serve loadNoFile emptyEnv getHealthSlashTwo).body := by
  decide

end Backend
